import Mathlib

/-!
Verification of two utility scripts of the AMPL repository:
`atomsci/ddm/utils/model_version_utils.py` and
`atomsci/ddm/utils/compare_splits_plots.py`.

The Python code is shallowly embedded: the filesystem visible to the
version-checking script is an explicit association list from path to file
content, JSON documents are a small inductive type, and every Python
exception the scripts can raise is a constructor of `PyErr`.  Fallible
Python functions become Lean functions into `Except PyErr _`.
-/

set_option autoImplicit false

namespace AMPL

/-- The Python exceptions that the embedded code can raise. -/
inductive PyErr where
  | valueError (msg : String)
  | keyError (key : String)
  | fileNotFound (path : String)
  | jsonDecode
  | attrError
  | tarError
  | typeError (msg : String)

/-- A JSON value, as produced by `json.load`.  Only the shapes the scripts
inspect are distinguished: objects (Python dicts), strings, and anything
else. -/
inductive Json where
  | obj (fields : List (String × Json))
  | str (s : String)
  | other

/-- Content of a file inside an extracted archive: either text that
`json.load` rejects, or a parsed JSON document. -/
inductive FileData where
  | malformed
  | json (j : Json)

/-- Content of a path in the filesystem that ends in a tar name: either a
gzip tar archive that `tarfile.open` rejects, or a readable archive listing
its members in order. -/
inductive TarGz where
  | corrupt
  | archive (entries : List (String × FileData))

/-- The ambient environment of `model_version_utils.py`: the version of the
installed `atomsci-ampl` package as reported by `importlib.metadata`, and
the filesystem, an association list from path to tar content. -/
structure Env where
  installedVersion : String
  files : List (String × TarGz)

/-- First-match association-list lookup, the embedding of Python dict
indexing and of reading a path from the filesystem. -/
def slookup {α : Type} (k : String) : List (String × α) → Option α
  | [] => none
  | e :: rest => if e.1 = k then some e.2 else slookup k rest

/-- The body of `get_ampl_version_from_json` after `json.load`: read
`metadata_dict.get("model_parameters").get("ampl_version", "probably 1.0.0")`.
Calling `.get` on a value that is not a dict (in particular on `None`,
when the outer key is missing) raises `AttributeError`. -/
def jsonVersion : Json → Except PyErr Json
  | .obj fields =>
    match slookup "model_parameters" fields with
    | some (.obj mp) =>
      match slookup "ampl_version" mp with
      | some v => .ok v
      | none => .ok (.str "probably 1.0.0")
    | _ => .error .attrError
  | _ => .error .attrError

/-- What `get_ampl_version_from_json` computes once the metadata file has
been opened with content `fd`: `json.load` raises `JSONDecodeError` on
malformed text, and the version is extracted otherwise. -/
def metadataVersion : FileData → Except PyErr Json
  | .malformed => .error .jsonDecode
  | .json j => jsonVersion j

/-- `get_ampl_version_from_json`: open `metadata_path` in the filesystem
`fs` (raising `FileNotFoundError` when absent), `json.load` it, then
extract the version. -/
def getAmplVersionFromJson (fs : List (String × FileData)) (metadata_path : String) :
    Except PyErr Json :=
  match slookup metadata_path fs with
  | none => .error (.fileNotFound metadata_path)
  | some fd => metadataVersion fd

/-- `tarfile.extractall(path=tmpdir)`: every member `name` of the archive is
written to `tmpdir ++ "/" ++ name`; a later member overwrites an earlier one
with the same name, hence the reversal in this first-match-lookup model. -/
def extractAll (tmpdir : String) (entries : List (String × FileData)) :
    List (String × FileData) :=
  (entries.map (fun e => (tmpdir ++ "/" ++ e.1, e.2))).reverse

/-- `get_ampl_version_from_model`: open the tar file named `filename`
(raising `FileNotFoundError` when the path does not exist and
`tarfile.ReadError` on a corrupt archive), extract it into the fresh
temporary directory `tmpdir` made by `tempfile.mkdtemp`, and read the
version from `tmpdir/model_metadata.json`. -/
def getAmplVersionFromModel (env : Env) (tmpdir filename : String) :
    Except PyErr Json :=
  match slookup filename env.files with
  | none => .error (.fileNotFound filename)
  | some .corrupt => .error .tarError
  | some (.archive entries) =>
    getAmplVersionFromJson (extractAll tmpdir entries) (tmpdir ++ "/" ++ "model_metadata.json")

/-- Python `str.strip()`, which raises `AttributeError` when the receiver is
not a string. -/
def pyStrip : Json → Except PyErr String
  | .str s => .ok s.trim
  | _ => .error .attrError

/-- `re.fullmatch` of the pattern consisting of the digit class and the dot,
one or more times: the string is nonempty and every character is a digit or
a dot. -/
def validFormat (s : String) : Bool :=
  s.length != 0 && s.data.all (fun c => c.isDigit || c == '.')

/-- `validate_version`: raise `ValueError` unless the input fully matches
the version pattern; return `True` otherwise. -/
def validateVersion (input : String) : Except PyErr Bool :=
  if validFormat input then .ok true
  else .error (.valueError ("Input " ++ input ++ " is not valid version format."))

/-- The hand-maintained compatibility table `comp_dict`. -/
def compDict : List (String × String) :=
  [("1.2", "group1"), ("1.3", "group1"), ("1.4", "group2"), ("1.5", "group2")]

/-- Python dict indexing `d[k]`, raising `KeyError` on a missing key. -/
def dictGet (d : List (String × String)) (k : String) : Except PyErr String :=
  match slookup k d with
  | some v => .ok v
  | none => .error (.keyError k)

/-- The first half of `check_version_compatible`: compute
`model_ampl_version`.  When the input names an existing file, the version is
read from the archive, stripped, and truncated to three characters;
otherwise the input is validated as a version string and truncated to three
characters. -/
def versionOfInput (env : Env) (tmpdir input : String) : Except PyErr String :=
  if (slookup input env.files).isSome then
    match getAmplVersionFromModel env tmpdir input with
    | .error e => .error e
    | .ok v =>
      match pyStrip v with
      | .error e => .error e
      | .ok s => .ok (s.take 3)
  else
    match validateVersion input with
    | .error e => .error e
    | .ok _ => .ok (input.take 3)

/-- The second half of `check_version_compatible`: look both
three-character prefixes up in `comp_dict` (the installed version first, as
Python evaluates the left operand of `==` first), raise `ValueError` when
the groups differ and `ignore_check` is unset, and otherwise return whether
the groups match. -/
def compareVersions (env : Env) (input modelVer : String) (ignoreCheck : Bool) :
    Except PyErr Bool :=
  match dictGet compDict (env.installedVersion.take 3) with
  | .error e => .error e
  | .ok g1 =>
    match dictGet compDict modelVer with
    | .error e => .error e
    | .ok g2 =>
      if !(g1 == g2) && !ignoreCheck then
        .error (.valueError ("Version compatible check: " ++ input ++
          " version: \"" ++ modelVer ++
          "\" not matching AMPL compatible version group: \"" ++
          env.installedVersion.take 3 ++ "\""))
      else
        .ok (g1 == g2)

/-- `check_version_compatible(input, ignore_check)`. -/
def checkVersionCompatible (env : Env) (tmpdir input : String) (ignoreCheck : Bool) :
    Except PyErr Bool :=
  match versionOfInput env tmpdir input with
  | .error e => .error e
  | .ok modelVer => compareVersions env input modelVer ignoreCheck

/-- Rendering of the version value in the format call
`"{}, {}".format(path.absolute(), version)`.  A JSON string renders as
itself; the scripts never format other shapes on the success path. -/
def renderVersion : Json → String
  | .str s => s
  | .obj _ => "<object>"
  | .other => "<value>"

/-- The exceptions caught by the `except` clause of
`get_ampl_version_from_dir`: `json.decoder.JSONDecodeError` and
`FileNotFoundError`. -/
def isSkippable : PyErr → Bool
  | .fileNotFound _ => true
  | .jsonDecode => true
  | _ => false

/-- `Path(dirname).rglob("*.tar.gz")`: the files of the environment that lie
under `dirname` and have the tar-gzip suffix, in filesystem order.  Paths of
the environment are taken to be absolute, so `path.absolute()` is the path
itself. -/
def rglobTarGz (env : Env) (dirname : String) : List (String × TarGz) :=
  env.files.filter (fun e => dirname.isPrefixOf e.1 && e.1.endsWith ".tar.gz")

/-- The loop body of `get_ampl_version_from_dir`: read each archive,
append the line `"path, version"` on success, skip the archive when the
caught exceptions occur, and let every other exception propagate. -/
def dirScan (env : Env) (tmpdir : String) : List (String × TarGz) → Except PyErr (List String)
  | [] => .ok []
  | e :: rest =>
    match getAmplVersionFromModel env tmpdir e.1 with
    | .ok v =>
      match dirScan env tmpdir rest with
      | .ok lines => .ok ((e.1 ++ ", " ++ renderVersion v) :: lines)
      | .error err => .error err
    | .error err =>
      if isSkippable err then dirScan env tmpdir rest
      else .error err

/-- `get_ampl_version_from_dir`: scan the archives under `dirname` and join
the collected lines with a newline. -/
def getAmplVersionFromDir (env : Env) (tmpdir dirname : String) : Except PyErr String :=
  match dirScan env tmpdir (rglobTarGz env dirname) with
  | .ok lines => .ok (String.intercalate "\n" lines)
  | .error e => .error e

/-!
Embedding of `compare_splits_plots.py`.  A dataframe row carries the value
of the id column, the value of the SMILES column, and the measured response
values as an association list from response-column name to value; a missing
entry is a missing measurement.
-/

/-- A row of `total_df`. -/
structure Row where
  id : String
  smiles : String
  resp : List (String × ℚ)
  deriving DecidableEq

/-- A row of an AMPL split dataframe, with its `cmpd_id` and `subset`
columns. -/
structure SplitEntry where
  cmpd_id : String
  subset : String
  deriving DecidableEq

/-- `split_df[split_df["subset"] == s]["cmpd_id"]`. -/
def subsetIds (split_df : List SplitEntry) (s : String) : List String :=
  (split_df.filter (fun e => e.subset == s)).map (fun e => e.cmpd_id)

/-- The `split` function: filter `total_df` three times by membership of the
id column in the train, test and valid id lists of `split_df`, returning the
train, test and valid dataframes in that order. -/
def split (total_df : List Row) (split_df : List SplitEntry) :
    List Row × List Row × List Row :=
  ( total_df.filter (fun r => (subsetIds split_df "train").contains r.id)
  , total_df.filter (fun r => (subsetIds split_df "test").contains r.id)
  , total_df.filter (fun r => (subsetIds split_df "valid").contains r.id) )

/-- Modelled from the spec: `make_y_w` of
`atomsci.ddm.pipeline.MultitaskScaffoldSplit` is not among the sources.
Following the constructor docstring, which says the object counts the
number of samples for each subset and each task, it returns the response
matrix `y` (one row per dataframe row, one column per response column,
missing values as 0) and the weight matrix `w` marking with 1 the cells
whose measurement is present, so that column sums of `w` count samples per
task. -/
def make_y_w (df : List Row) (responseCols : List String) :
    List (List ℚ) × List (List ℚ) :=
  ( df.map (fun r => responseCols.map (fun c => (slookup c r.resp).getD 0))
  , df.map (fun r => responseCols.map (fun c => if (slookup c r.resp).isSome then (1 : ℚ) else 0)) )

/-- `np.sum(m, axis=0)` for a matrix with `ncols` columns. -/
def sumAxis0 (m : List (List ℚ)) (ncols : ℕ) : List ℚ :=
  (List.range ncols).map (fun j => (m.map (fun row => row.getD j 0)).sum)

/-- The fields computed by `SplitStats.__init__`. -/
structure SplitStats where
  total_df : List Row
  split_df : List SplitEntry
  response_cols : List String
  train_df : List Row
  test_df : List Row
  valid_df : List Row
  total_y : List (List ℚ)
  total_w : List (List ℚ)
  train_y : List (List ℚ)
  train_w : List (List ℚ)
  test_y : List (List ℚ)
  test_w : List (List ℚ)
  valid_y : List (List ℚ)
  valid_w : List (List ℚ)
  dists : List ℚ
  train_fracs : List ℚ
  valid_fracs : List ℚ
  test_fracs : List ℚ

/-- `SplitStats.__init__` with the external distance routine
`chem_diversity.calc_dist_smiles` passed in as the uninterpreted function
`cds`.  `_get_dists` applies it to the metric names and the SMILES columns
of the train and test dataframes; `_split_ratios` divides the column sums
of each subset weight matrix by those of the total weight matrix. -/
def mkSplitStats (cds : String → String → List String → List String → List ℚ)
    (total_df : List Row) (split_df : List SplitEntry) (responseCols : List String) :
    SplitStats :=
  let parts := split total_df split_df
  let train_df := parts.1
  let test_df := parts.2.1
  let valid_df := parts.2.2
  let n := responseCols.length
  let tot := make_y_w total_df responseCols
  let tr := make_y_w train_df responseCols
  let te := make_y_w test_df responseCols
  let va := make_y_w valid_df responseCols
  let dists := cds "ECFP" "tanimoto" (train_df.map Row.smiles) (test_df.map Row.smiles)
  let totalS := sumAxis0 tot.2 n
  { total_df := total_df
    split_df := split_df
    response_cols := responseCols
    train_df := train_df
    test_df := test_df
    valid_df := valid_df
    total_y := tot.1
    total_w := tot.2
    train_y := tr.1
    train_w := tr.2
    test_y := te.1
    test_w := te.2
    valid_y := va.1
    valid_w := va.2
    dists := dists
    train_fracs := List.zipWith (fun a b => a / b) (sumAxis0 tr.2 n) totalS
    valid_fracs := List.zipWith (fun a b => a / b) (sumAxis0 va.2 n) totalS
    test_fracs := List.zipWith (fun a b => a / b) (sumAxis0 te.2 n) totalS }

/-- `save_figure`: writes the figure as png and as svg. -/
def saveFigure (filename : String) : List String :=
  [filename ++ ".png", filename ++ ".svg"]

/-- `SplitStats.dist_hist_plot`: files saved by the plot of the distance
histogram. -/
def distHistPlot (_ss : SplitStats) (dist_path : String) : List String :=
  if dist_path.length > 0 then saveFigure (dist_path ++ "_dist_hist") else []

/-- `SplitStats.umap_plot`: files saved by the UMAP scatter plot. -/
def umapPlot (_ss : SplitStats) (dist_path : String) : List String :=
  if dist_path.length > 0 then saveFigure (dist_path ++ "_umap_scatter") else []

/-- `SplitStats.subset_frac_plot`: files saved by the subset-fraction box
plot. -/
def subsetFracPlot (_ss : SplitStats) (dist_path : String) : List String :=
  if dist_path.length > 0 then saveFigure (dist_path ++ "_frac_box") else []

/-- `SplitStats.make_all_plots`: the three diagnostic plots in order. -/
def makeAllPlots (ss : SplitStats) (dist_path : String) : List String :=
  distHistPlot ss dist_path ++ umapPlot ss dist_path ++ subsetFracPlot ss dist_path

/-- The Python call protocol for `SplitStats(...)`: `response_cols` has no
default value in `__init__`, so a call that omits it raises `TypeError`
before the constructor body runs. -/
def callSplitStats (cds : String → String → List String → List String → List ℚ)
    (total_df : List Row) (split_df : List SplitEntry)
    (responseCols : Option (List String)) : Except PyErr SplitStats :=
  match responseCols with
  | none => .error (.typeError
      "SplitStats.__init__ missing 1 required positional argument: response_cols")
  | some rc => .ok (mkSplitStats cds total_df split_df rc)

/-- The `__main__` block of `compare_splits_plots.py`: build a `SplitStats`
for split A and plot it under `output_dir/split_a`, then the same for split
B under `output_dir/split_b`.  Both constructor calls pass only `total_df`,
`split_df`, `smiles_col` and `id_col`, omitting `response_cols`.  The
result collects the files saved by the plots. -/
def compareSplitsMain (cds : String → String → List String → List String → List ℚ)
    (df : List Row) (splitA splitB : List SplitEntry) (outputDir : String) :
    Except PyErr (List String) :=
  match callSplitStats cds df splitA none with
  | .error e => .error e
  | .ok ssA =>
    let plotsA := makeAllPlots ssA (outputDir ++ "/split_a")
    match callSplitStats cds df splitB none with
    | .error e => .error e
    | .ok ssB => .ok (plotsA ++ makeAllPlots ssB (outputDir ++ "/split_b"))

/-!
General lemmas about `slookup` and the extraction model.
-/

theorem slookup_map_inj {α : Type} (g : String → String)
    (hg : ∀ a b : String, g a = g b → a = b) (l : List (String × α)) (k : String) :
    slookup (g k) (l.map (fun e => (g e.1, e.2))) = slookup k l := by
  induction l with
  | nil => rfl
  | cons e rest ih =>
    simp only [List.map_cons, slookup]
    by_cases h : e.1 = k
    · subst h
      simp
    · rw [if_neg h, if_neg, ih]
      intro hc
      exact h (hg _ _ hc)

theorem string_append_cancel (p a b : String) (h : p ++ a = p ++ b) : a = b := by
  have hd := congrArg String.data h
  simp only [String.data_append] at hd
  exact String.ext (List.append_cancel_left hd)

/-- Reading an extracted member: looking `tmpdir/name` up in the extracted
tree finds the content of the last archive member called `name`. -/
theorem slookup_extractAll (tmpdir name : String) (entries : List (String × FileData)) :
    slookup (tmpdir ++ "/" ++ name) (extractAll tmpdir entries)
      = slookup name entries.reverse := by
  unfold extractAll
  rw [← List.map_reverse]
  exact slookup_map_inj (fun s => tmpdir ++ "/" ++ s)
    (fun a b hab => string_append_cancel _ a b hab) entries.reverse name

/-!
Claim C3.
-/

/-- C3: for every metadata JSON document whose top level contains a
`model_parameters` object, `get_ampl_version_from_json` returns the value of
the `ampl_version` key inside that object, and returns the string
`probably 1.0.0` when the `ampl_version` key is absent from that object. -/
theorem c3_get_ampl_version_from_json (fs : List (String × FileData)) (path : String)
    (fields mp : List (String × Json))
    (hdoc : slookup path fs = some (.json (.obj fields)))
    (hmp : slookup "model_parameters" fields = some (.obj mp)) :
    (∀ v, slookup "ampl_version" mp = some v →
      getAmplVersionFromJson fs path = .ok v)
    ∧ (slookup "ampl_version" mp = none →
      getAmplVersionFromJson fs path = .ok (.str "probably 1.0.0")) := by
  constructor
  · intro v hv
    simp [getAmplVersionFromJson, hdoc, metadataVersion, jsonVersion, hmp, hv]
  · intro hv
    simp [getAmplVersionFromJson, hdoc, metadataVersion, jsonVersion, hmp, hv]

/-- A two-document filesystem used to instantiate C3. -/
def fsC3 : List (String × FileData) :=
  [ ("meta.json", .json (.obj [("model_parameters", .obj [("ampl_version", .str "1.4.0")])]))
  , ("meta2.json", .json (.obj [("model_parameters", .obj [("other_key", .str "x")])])) ]

theorem c3_get_ampl_version_from_json_witness :
    getAmplVersionFromJson fsC3 "meta.json" = .ok (.str "1.4.0")
    ∧ getAmplVersionFromJson fsC3 "meta2.json" = .ok (.str "probably 1.0.0") :=
  ⟨(c3_get_ampl_version_from_json fsC3 "meta.json"
      [("model_parameters", .obj [("ampl_version", .str "1.4.0")])]
      [("ampl_version", .str "1.4.0")] rfl rfl).1 (.str "1.4.0") rfl,
   (c3_get_ampl_version_from_json fsC3 "meta2.json"
      [("model_parameters", .obj [("other_key", .str "x")])]
      [("other_key", .str "x")] rfl rfl).2 rfl⟩

/-!
Claim C6.
-/

/-- C6: for every readable gzip tar archive containing a member named
`model_metadata.json` at its top level, `get_ampl_version_from_model`
extracts the archive into the temporary directory and returns exactly what
`get_ampl_version_from_json` computes from that member, whatever the
temporary directory is: the `JSONDecodeError` for malformed text, and the
version extracted by the dictionary reads otherwise. -/
theorem c6_get_ampl_version_from_model (env : Env) (tmpdir filename : String)
    (entries : List (String × FileData)) (fd : FileData)
    (hfile : slookup filename env.files = some (.archive entries))
    (hmeta : slookup "model_metadata.json" entries.reverse = some fd) :
    getAmplVersionFromModel env tmpdir filename = metadataVersion fd := by
  simp only [getAmplVersionFromModel, hfile]
  simp only [getAmplVersionFromJson, slookup_extractAll, hmeta]

/-- The environment used to instantiate C1, C6 and C9: AMPL 1.5.0 is
installed and a single model archive is on disk. -/
def envW : Env :=
  { installedVersion := "1.5.0"
    files := [("model.tar.gz", .archive
      [ ("best_model/weights.h5", .json .other)
      , ("model_metadata.json", .json (.obj
          [("model_parameters", .obj [("ampl_version", .str "1.4.1")])])) ])] }

theorem c6_get_ampl_version_from_model_witness :
    getAmplVersionFromModel envW "/tmp/tmpabc123" "model.tar.gz" =
      .ok (.str "1.4.1") :=
  c6_get_ampl_version_from_model envW "/tmp/tmpabc123" "model.tar.gz"
    [ ("best_model/weights.h5", .json .other)
    , ("model_metadata.json", .json (.obj
        [("model_parameters", .obj [("ampl_version", .str "1.4.1")])])) ]
    (.json (.obj [("model_parameters", .obj [("ampl_version", .str "1.4.1")])]))
    rfl rfl

/-!
Claim C2.
-/

/-- C2: the command-line entry point of `compare_splits_plots.py` never
reaches the plotting stage: both `SplitStats` constructor calls omit the
required `response_cols` argument, so the program raises `TypeError` for
every input before constructing the first `SplitStats`. -/
theorem c2_main_raises_type_error
    (cds : String → String → List String → List String → List ℚ)
    (df : List Row) (splitA splitB : List SplitEntry) (outputDir : String) :
    compareSplitsMain cds df splitA splitB outputDir =
      .error (.typeError
        "SplitStats.__init__ missing 1 required positional argument: response_cols") :=
  rfl

/-!
Claim C10.
-/

/-- The first exception of the scan that the `except` clause of
`get_ampl_version_from_dir` does not catch, if any. -/
def firstFatal (env : Env) (tmpdir : String) (l : List (String × TarGz)) : Option PyErr :=
  l.findSome? (fun e =>
    match getAmplVersionFromModel env tmpdir e.1 with
    | .ok _ => none
    | .error err => if isSkippable err then none else some err)

/-- One line per archive whose version was read successfully, in scan
order. -/
def successLines (env : Env) (tmpdir : String) (l : List (String × TarGz)) : List String :=
  l.filterMap (fun e =>
    match getAmplVersionFromModel env tmpdir e.1 with
    | .ok v => some (e.1 ++ ", " ++ renderVersion v)
    | .error _ => none)

theorem firstFatal_cons (env : Env) (tmpdir : String) (e : String × TarGz)
    (rest : List (String × TarGz)) :
    firstFatal env tmpdir (e :: rest) =
      match getAmplVersionFromModel env tmpdir e.1 with
      | .ok _ => firstFatal env tmpdir rest
      | .error err => if isSkippable err then firstFatal env tmpdir rest else some err := by
  unfold firstFatal
  rw [List.findSome?_cons]
  cases getAmplVersionFromModel env tmpdir e.1 with
  | ok v => rfl
  | error err =>
    by_cases hs : isSkippable err = true
    · simp [hs]
    · simp [hs]

theorem successLines_cons (env : Env) (tmpdir : String) (e : String × TarGz)
    (rest : List (String × TarGz)) :
    successLines env tmpdir (e :: rest) =
      match getAmplVersionFromModel env tmpdir e.1 with
      | .ok v => (e.1 ++ ", " ++ renderVersion v) :: successLines env tmpdir rest
      | .error _ => successLines env tmpdir rest := by
  unfold successLines
  rw [List.filterMap_cons]
  cases getAmplVersionFromModel env tmpdir e.1 <;> rfl

theorem dirScan_spec (env : Env) (tmpdir : String) (l : List (String × TarGz)) :
    dirScan env tmpdir l =
      match firstFatal env tmpdir l with
      | some err => .error err
      | none => .ok (successLines env tmpdir l) := by
  induction l with
  | nil => rfl
  | cons e rest ih =>
    rw [firstFatal_cons, successLines_cons]
    simp only [dirScan]
    cases hv : getAmplVersionFromModel env tmpdir e.1 with
    | ok v =>
      rw [ih]
      cases firstFatal env tmpdir rest <;> rfl
    | error err =>
      by_cases hs : isSkippable err = true
      · simp only [hs, if_true, ih]
      · simp only [hs, if_false]
        rfl

/-- C10: `get_ampl_version_from_dir` visits the tar-gzip archives under the
directory in order; when every failure among them is a missing metadata
file or malformed metadata JSON, it returns the newline-joined list of
`path, version` lines of the successfully read archives, the failed ones
skipped; otherwise it propagates the first uncaught exception of the
scan. -/
theorem c10_get_ampl_version_from_dir (env : Env) (tmpdir dirname : String) :
    getAmplVersionFromDir env tmpdir dirname =
      match firstFatal env tmpdir (rglobTarGz env dirname) with
      | some err => .error err
      | none => .ok (String.intercalate "\n"
          (successLines env tmpdir (rglobTarGz env dirname))) := by
  unfold getAmplVersionFromDir
  rw [dirScan_spec]
  cases firstFatal env tmpdir (rglobTarGz env dirname) <;> rfl

/-!
Lemmas about `check_version_compatible`, shared by C1, C5 and C9.
-/

theorem versionOfInput_string (env : Env) (tmpdir input : String)
    (hnf : slookup input env.files = none) (hv : validFormat input = true) :
    versionOfInput env tmpdir input = .ok (input.take 3) := by
  simp [versionOfInput, hnf, validateVersion, hv]

theorem versionOfInput_invalid (env : Env) (tmpdir input : String)
    (hnf : slookup input env.files = none) (hv : validFormat input = false) :
    versionOfInput env tmpdir input =
      .error (.valueError ("Input " ++ input ++ " is not valid version format.")) := by
  simp [versionOfInput, hnf, validateVersion, hv]

theorem checkVersionCompatible_string (env : Env) (tmpdir input : String) (ig : Bool)
    (hnf : slookup input env.files = none) (hv : validFormat input = true) :
    checkVersionCompatible env tmpdir input ig =
      compareVersions env input (input.take 3) ig := by
  unfold checkVersionCompatible
  rw [versionOfInput_string env tmpdir input hnf hv]

/-!
Claim C1.
-/

/-- C1: for a version-string input (digits and dots, not a path of an
existing file) whose three-character prefix is a key of `comp_dict`, and
with the installed AMPL version prefix also a key, the checker returns
`True` exactly when the table maps both prefixes to the same group; and for
an input naming an existing archive file, the version compared is the one
read from the embedded metadata, stripped, first three characters. -/
theorem c1_check_version_compatible (env : Env) (tmpdir input : String) (ig : Bool) :
    ( slookup input env.files = none → validFormat input = true →
      ∀ gm ga, slookup (input.take 3) compDict = some gm →
        slookup (env.installedVersion.take 3) compDict = some ga →
        (checkVersionCompatible env tmpdir input ig = .ok true ↔ ga = gm) )
    ∧ ( ∀ v, (slookup input env.files).isSome = true →
        getAmplVersionFromModel env tmpdir input = .ok (.str v) →
        checkVersionCompatible env tmpdir input ig =
          compareVersions env input (v.trim.take 3) ig ) := by
  constructor
  · intro hnf hv gm ga hgm hga
    rw [checkVersionCompatible_string env tmpdir input ig hnf hv]
    simp only [compareVersions, dictGet, hgm, hga]
    by_cases hgg : ga = gm
    · subst hgg
      simp
    · have hne : (ga == gm) = false := beq_eq_false_iff_ne.mpr hgg
      rw [hne]
      cases ig <;> simp [hgg]
  · intro v hfile har
    unfold checkVersionCompatible versionOfInput
    rw [hfile]
    simp only [har, pyStrip, if_true]

/-- C1 instantiated in `envW`: the string input `1.4.9999` is compatible
with installed AMPL 1.5.0 because `1.4` and `1.5` are both in `group2`, and
the archive input is compared through the stripped three-character prefix
of its metadata version `1.4.1`. -/
theorem c1_check_version_compatible_witness :
    checkVersionCompatible envW "/tmp/tmp1" "1.4.9999" false = .ok true
    ∧ checkVersionCompatible envW "/tmp/tmp1" "model.tar.gz" false =
        compareVersions envW "model.tar.gz" ("1.4.1".trim.take 3) false :=
  ⟨((c1_check_version_compatible envW "/tmp/tmp1" "1.4.9999" false).1
      rfl rfl "group2" "group2" rfl rfl).mpr rfl,
   (c1_check_version_compatible envW "/tmp/tmp1" "model.tar.gz" false).2
      "1.4.1" rfl rfl⟩

/-!
Claim C5.
-/

/-- Outcome equality as C5 states it: equal return values, or a raised
error in both runs. -/
def sameOutcome : Except PyErr Bool → Except PyErr Bool → Bool
  | .ok a, .ok b => a == b
  | .error _, .error _ => true
  | _, _ => false

theorem sameOutcome_refl (r : Except PyErr Bool) : sameOutcome r r = true := by
  cases r with
  | ok b => simp [sameOutcome]
  | error e => rfl

theorem compareVersions_sameOutcome (env : Env) (x y mv : String) (ig : Bool) :
    sameOutcome (compareVersions env x mv ig) (compareVersions env y mv ig) = true := by
  unfold compareVersions
  cases dictGet compDict (env.installedVersion.take 3) with
  | error e => rfl
  | ok g1 =>
    cases dictGet compDict mv with
    | error e => rfl
    | ok g2 =>
      by_cases h : (!(g1 == g2) && !ig) = true
      · simp [h, sameOutcome]
      · simp [h, sameOutcome]

/-- C5: two version-string inputs (matching the version pattern, neither an
existing file) that agree on their first three characters produce the same
outcome under the same installed AMPL version and `ignore_check` flag: the
same return value, or a raised error in both runs. -/
theorem c5_prefix_determines_outcome (env : Env) (tmpdir a b : String) (ig : Bool)
    (hfa : slookup a env.files = none) (hfb : slookup b env.files = none)
    (hva : validFormat a = true) (hvb : validFormat b = true)
    (h3 : a.take 3 = b.take 3) :
    sameOutcome (checkVersionCompatible env tmpdir a ig)
      (checkVersionCompatible env tmpdir b ig) = true := by
  rw [checkVersionCompatible_string env tmpdir a ig hfa hva,
    checkVersionCompatible_string env tmpdir b ig hfb hvb, h3]
  exact compareVersions_sameOutcome env a b (b.take 3) ig

theorem c5_prefix_determines_outcome_witness :
    sameOutcome (checkVersionCompatible envW "/tmp/tmp5" "1.2.0" false)
      (checkVersionCompatible envW "/tmp/tmp5" "1.2.0.9999" false) = true :=
  c5_prefix_determines_outcome envW "/tmp/tmp5" "1.2.0" "1.2.0.9999" false
    rfl rfl rfl rfl rfl

/-!
Claim C9.
-/

/-- Discriminator for a raised `KeyError`. -/
def isKeyErr : Except PyErr Bool → Bool
  | .error (.keyError _) => true
  | _ => false

/-- Discriminator for a raised `ValueError`. -/
def isValueErr : Except PyErr Bool → Bool
  | .error (.valueError _) => true
  | _ => false

/-- C9: on a non-file string input, the checker raises `ValueError` when
any character is neither a digit nor a period; on a digits-and-periods
input whose three-character prefix is not a key of `comp_dict` it raises
`KeyError` instead; and when both prefixes are keys mapped to different
groups it raises `ValueError` if `ignore_check` is unset and returns
`False` without raising if it is set. -/
theorem c9_error_behaviour (env : Env) (tmpdir input : String) (ig : Bool)
    (hnf : slookup input env.files = none) :
    ( input.data.any (fun c => !(c.isDigit || c == '.')) = true →
      checkVersionCompatible env tmpdir input ig =
        .error (.valueError ("Input " ++ input ++ " is not valid version format.")) )
    ∧ ( validFormat input = true → slookup (input.take 3) compDict = none →
        ∃ k, checkVersionCompatible env tmpdir input ig = .error (.keyError k) )
    ∧ ( ∀ gm ga, validFormat input = true →
        slookup (input.take 3) compDict = some gm →
        slookup (env.installedVersion.take 3) compDict = some ga → gm ≠ ga →
        ( (ig = false →
            ∃ m, checkVersionCompatible env tmpdir input ig = .error (.valueError m))
        ∧ (ig = true → checkVersionCompatible env tmpdir input ig = .ok false) ) ) := by
  refine ⟨?_, ?_, ?_⟩
  · intro hbad
    have hvf : validFormat input = false := by
      obtain ⟨c, hc, hcbad⟩ := List.any_eq_true.mp hbad
      have hcf : (c.isDigit || c == '.') = false := by
        simpa using hcbad
      unfold validFormat
      have hall : input.data.all (fun c => c.isDigit || c == '.') = false := by
        cases hcase : input.data.all (fun c => c.isDigit || c == '.') with
        | false => rfl
        | true => exact absurd (List.all_eq_true.mp hcase c hc) (by simp [hcf])
      rw [hall, Bool.and_false]
    unfold checkVersionCompatible
    rw [versionOfInput_invalid env tmpdir input hnf hvf]
  · intro hv hnone
    rw [checkVersionCompatible_string env tmpdir input ig hnf hv]
    unfold compareVersions dictGet
    cases hins : slookup (env.installedVersion.take 3) compDict with
    | none => exact ⟨env.installedVersion.take 3, rfl⟩
    | some ga =>
      rw [hnone]
      exact ⟨input.take 3, rfl⟩
  · intro gm ga hv hgm hga hne
    rw [checkVersionCompatible_string env tmpdir input ig hnf hv]
    simp only [compareVersions, dictGet, hgm, hga]
    have hbeq : (ga == gm) = false := beq_eq_false_iff_ne.mpr (Ne.symm hne)
    constructor
    · intro hig
      subst hig
      rw [hbeq]
      exact ⟨_, rfl⟩
    · intro hig
      subst hig
      rw [hbeq]
      simp

theorem c9_error_behaviour_witness :
    checkVersionCompatible envW "/tmp/tmp9" "1.x" false =
      .error (.valueError "Input 1.x is not valid version format.")
    ∧ isKeyErr (checkVersionCompatible envW "/tmp/tmp9" "1.0" false) = true
    ∧ isValueErr (checkVersionCompatible envW "/tmp/tmp9" "1.2" false) = true
    ∧ checkVersionCompatible envW "/tmp/tmp9" "1.2" true = .ok false := by
  refine ⟨?_, ?_, ?_, ?_⟩
  · exact (c9_error_behaviour envW "/tmp/tmp9" "1.x" false rfl).1 rfl
  · obtain ⟨k, hk⟩ := (c9_error_behaviour envW "/tmp/tmp9" "1.0" false rfl).2.1 rfl rfl
    rw [hk]
    rfl
  · obtain ⟨m, hm⟩ := ((c9_error_behaviour envW "/tmp/tmp9" "1.2" false rfl).2.2
      "group1" "group2" rfl rfl rfl (by decide)).1 rfl
    rw [hm]
    rfl
  · exact ((c9_error_behaviour envW "/tmp/tmp9" "1.2" true rfl).2.2
      "group1" "group2" rfl rfl rfl (by decide)).2 rfl

/-!
Claim C4.
-/

/-- Membership in one of the three filters produced by `split`, expressed
through the split dataframe. -/
theorem contains_subsetIds (split_df : List SplitEntry) (s x : String) :
    ((subsetIds split_df s).contains x = true) ↔
      ∃ e ∈ split_df, e.cmpd_id = x ∧ e.subset = s := by
  simp [subsetIds, List.mem_filter, List.mem_map]
  constructor
  · rintro ⟨e, ⟨he, hs⟩, hid⟩
    exact ⟨e, he, hid, hs⟩
  · rintro ⟨e, he, hid, hs⟩
    exact ⟨e, ⟨he, hs⟩, hid⟩

theorem mem_split_subset (total_df : List Row) (split_df : List SplitEntry)
    (s : String) (r : Row) :
    (r ∈ total_df.filter (fun r => (subsetIds split_df s).contains r.id)) ↔
      (r ∈ total_df ∧ ∃ e ∈ split_df, e.cmpd_id = r.id ∧ e.subset = s) := by
  rw [List.mem_filter, contains_subsetIds]

/-- C4: when each compound identifier occurs at most once in the split
dataframe and carries one label among train, valid and test, each row of
`total_df` labeled train appears exactly in the first result of `split`,
test exactly in the second, valid exactly in the third, a row whose
identifier is absent from the split dataframe appears in none, and the
three results are pairwise disjoint. -/
theorem c4_split_partition (total_df : List Row) (split_df : List SplitEntry)
    (huniq : (split_df.map SplitEntry.cmpd_id).Nodup)
    (_hlab : ∀ e ∈ split_df, e.subset = "train" ∨ e.subset = "valid" ∨ e.subset = "test") :
    (∀ r ∈ total_df,
      ((∃ e ∈ split_df, e.cmpd_id = r.id ∧ e.subset = "train") →
        r ∈ (split total_df split_df).1 ∧ r ∉ (split total_df split_df).2.1 ∧
          r ∉ (split total_df split_df).2.2)
      ∧ ((∃ e ∈ split_df, e.cmpd_id = r.id ∧ e.subset = "test") →
        r ∈ (split total_df split_df).2.1 ∧ r ∉ (split total_df split_df).1 ∧
          r ∉ (split total_df split_df).2.2)
      ∧ ((∃ e ∈ split_df, e.cmpd_id = r.id ∧ e.subset = "valid") →
        r ∈ (split total_df split_df).2.2 ∧ r ∉ (split total_df split_df).1 ∧
          r ∉ (split total_df split_df).2.1)
      ∧ ((∀ e ∈ split_df, e.cmpd_id ≠ r.id) →
        r ∉ (split total_df split_df).1 ∧ r ∉ (split total_df split_df).2.1 ∧
          r ∉ (split total_df split_df).2.2))
    ∧ (∀ r : Row,
        ¬(r ∈ (split total_df split_df).1 ∧ r ∈ (split total_df split_df).2.1)
      ∧ ¬(r ∈ (split total_df split_df).1 ∧ r ∈ (split total_df split_df).2.2)
      ∧ ¬(r ∈ (split total_df split_df).2.1 ∧ r ∈ (split total_df split_df).2.2)) := by
  have inj := List.inj_on_of_nodup_map huniq
  have hdisj : ∀ s t : String, s ≠ t → ∀ x : String,
      (∃ e ∈ split_df, e.cmpd_id = x ∧ e.subset = s) →
      (∃ e ∈ split_df, e.cmpd_id = x ∧ e.subset = t) → False := by
    rintro s t hst x ⟨e1, he1, hid1, hs1⟩ ⟨e2, he2, hid2, hs2⟩
    have he : e1 = e2 := inj he1 he2 (hid1.trans hid2.symm)
    subst he
    exact hst (hs1 ▸ hs2 ▸ rfl)
  constructor
  · intro r hr
    refine ⟨?_, ?_, ?_, ?_⟩
    · intro hex
      refine ⟨(mem_split_subset total_df split_df "train" r).mpr ⟨hr, hex⟩, ?_, ?_⟩
      · intro hmem
        exact hdisj "train" "test" (by decide) r.id hex
          ((mem_split_subset total_df split_df "test" r).mp hmem).2
      · intro hmem
        exact hdisj "train" "valid" (by decide) r.id hex
          ((mem_split_subset total_df split_df "valid" r).mp hmem).2
    · intro hex
      refine ⟨(mem_split_subset total_df split_df "test" r).mpr ⟨hr, hex⟩, ?_, ?_⟩
      · intro hmem
        exact hdisj "test" "train" (by decide) r.id hex
          ((mem_split_subset total_df split_df "train" r).mp hmem).2
      · intro hmem
        exact hdisj "test" "valid" (by decide) r.id hex
          ((mem_split_subset total_df split_df "valid" r).mp hmem).2
    · intro hex
      refine ⟨(mem_split_subset total_df split_df "valid" r).mpr ⟨hr, hex⟩, ?_, ?_⟩
      · intro hmem
        exact hdisj "valid" "train" (by decide) r.id hex
          ((mem_split_subset total_df split_df "train" r).mp hmem).2
      · intro hmem
        exact hdisj "valid" "test" (by decide) r.id hex
          ((mem_split_subset total_df split_df "test" r).mp hmem).2
    · intro habs
      refine ⟨?_, ?_, ?_⟩ <;> intro hmem
      · obtain ⟨e, he, hid, _⟩ := ((mem_split_subset total_df split_df "train" r).mp hmem).2
        exact habs e he hid
      · obtain ⟨e, he, hid, _⟩ := ((mem_split_subset total_df split_df "test" r).mp hmem).2
        exact habs e he hid
      · obtain ⟨e, he, hid, _⟩ := ((mem_split_subset total_df split_df "valid" r).mp hmem).2
        exact habs e he hid
  · intro r
    refine ⟨?_, ?_, ?_⟩ <;> rintro ⟨h1, h2⟩
    · exact hdisj "train" "test" (by decide) r.id
        ((mem_split_subset total_df split_df "train" r).mp h1).2
        ((mem_split_subset total_df split_df "test" r).mp h2).2
    · exact hdisj "train" "valid" (by decide) r.id
        ((mem_split_subset total_df split_df "train" r).mp h1).2
        ((mem_split_subset total_df split_df "valid" r).mp h2).2
    · exact hdisj "test" "valid" (by decide) r.id
        ((mem_split_subset total_df split_df "test" r).mp h1).2
        ((mem_split_subset total_df split_df "valid" r).mp h2).2

/-- Rows and split used to instantiate C4. -/
def rowW1 : Row := { id := "c1", smiles := "CCO", resp := [] }

def rowW2 : Row := { id := "c2", smiles := "CCN", resp := [] }

def rowW3 : Row := { id := "c3", smiles := "CCC", resp := [] }

def rowW4 : Row := { id := "c4", smiles := "CCCl", resp := [] }

def totalW4 : List Row := [rowW1, rowW2, rowW3, rowW4]

def splitW4 : List SplitEntry :=
  [ { cmpd_id := "c1", subset := "train" }
  , { cmpd_id := "c2", subset := "test" }
  , { cmpd_id := "c3", subset := "valid" } ]

theorem c4_split_partition_witness :
    rowW1 ∈ (split totalW4 splitW4).1 ∧ rowW1 ∉ (split totalW4 splitW4).2.1 ∧
      rowW1 ∉ (split totalW4 splitW4).2.2 :=
  ((c4_split_partition totalW4 splitW4 (by decide) (by decide)).1 rowW1
    (by decide)).1
    ⟨{ cmpd_id := "c1", subset := "train" }, by decide, rfl, rfl⟩

/-!
Claim C7.
-/

/-- C7: the `dists` field of a `SplitStats` is the external
`calc_dist_smiles` routine applied with metrics `ECFP` and `tanimoto` to
the SMILES of the train subset and the SMILES of the test subset, in that
order; and the validation assignment contributes nothing: two split
dataframes with the same train ids and the same test ids give the same
`dists`. -/
theorem c7_dists (cds : String → String → List String → List String → List ℚ)
    (total_df : List Row) (split_df : List SplitEntry) (rc : List String) :
    (mkSplitStats cds total_df split_df rc).dists =
      cds "ECFP" "tanimoto" ((split total_df split_df).1.map Row.smiles)
        ((split total_df split_df).2.1.map Row.smiles)
    ∧ ∀ split_df2 : List SplitEntry,
        subsetIds split_df2 "train" = subsetIds split_df "train" →
        subsetIds split_df2 "test" = subsetIds split_df "test" →
        (mkSplitStats cds total_df split_df2 rc).dists =
          (mkSplitStats cds total_df split_df rc).dists := by
  constructor
  · rfl
  · intro split_df2 htr hte
    show cds "ECFP" "tanimoto"
        ((total_df.filter (fun r => (subsetIds split_df2 "train").contains r.id)).map Row.smiles)
        ((total_df.filter (fun r => (subsetIds split_df2 "test").contains r.id)).map Row.smiles)
      = cds "ECFP" "tanimoto"
        ((total_df.filter (fun r => (subsetIds split_df "train").contains r.id)).map Row.smiles)
        ((total_df.filter (fun r => (subsetIds split_df "test").contains r.id)).map Row.smiles)
    rw [htr, hte]

/-- A concrete stand-in for the external distance routine, used only to
instantiate C7 and C8. -/
def cdsW : String → String → List String → List String → List ℚ :=
  fun _ _ xs ys => [(xs.length : ℚ), (ys.length : ℚ)]

/-- The split of `splitW4` with one extra valid compound: same train ids,
same test ids, different validation subset. -/
def splitW7 : List SplitEntry :=
  splitW4 ++ [{ cmpd_id := "c4", subset := "valid" }]

theorem c7_dists_witness :
    (mkSplitStats cdsW totalW4 splitW7 ["a"]).dists =
      (mkSplitStats cdsW totalW4 splitW4 ["a"]).dists :=
  (c7_dists cdsW totalW4 splitW4 ["a"]).2 splitW7 rfl rfl

/-!
Claim C8.
-/

/-- The weight of row `r` in response column `j`, as `make_y_w` assigns
it. -/
def wcell (rc : List String) (j : ℕ) (r : Row) : ℚ :=
  (rc.map (fun c => if (slookup c r.resp).isSome then (1 : ℚ) else 0)).getD j 0

theorem sumAxis0_getD (m : List (List ℚ)) (n j : ℕ) (hj : j < n) :
    (sumAxis0 m n).getD j 0 = (m.map (fun row => row.getD j 0)).sum := by
  unfold sumAxis0
  rw [List.getD_eq_getElem _ _ (by simpa using hj)]
  simp

theorem make_y_w_colsum (df : List Row) (rc : List String) (j : ℕ) (hj : j < rc.length) :
    (sumAxis0 (make_y_w df rc).2 rc.length).getD j 0 = (df.map (wcell rc j)).sum := by
  rw [sumAxis0_getD _ _ _ hj]
  unfold make_y_w wcell
  rw [List.map_map]
  rfl

theorem zipWith_div_getD (as bs : List ℚ) (j : ℕ) (hja : j < as.length)
    (hjb : j < bs.length) :
    (List.zipWith (fun a b => a / b) as bs).getD j 0 = as.getD j 0 / bs.getD j 0 := by
  rw [List.getD_eq_getElem _ _ (by rw [List.length_zipWith]; omega),
    List.getElem_zipWith, List.getD_eq_getElem _ _ hja, List.getD_eq_getElem _ _ hjb]

theorem length_sumAxis0 (m : List (List ℚ)) (n : ℕ) : (sumAxis0 m n).length = n := by
  simp [sumAxis0]

/-- Summing a function over the three filters of a partition of `l` gives
the sum over `l`. -/
theorem filter_partition_sum (f : Row → ℚ) (l : List Row) (p1 p2 p3 : Row → Bool)
    (h : ∀ r ∈ l, (p1 r).toNat + (p2 r).toNat + (p3 r).toNat = 1) :
    ((l.filter p1).map f).sum + ((l.filter p2).map f).sum + ((l.filter p3).map f).sum
      = (l.map f).sum := by
  induction l with
  | nil => simp
  | cons r rest ih =>
    have hr := h r (List.mem_cons_self r rest)
    have ih' := ih (fun x hx => h x (List.mem_cons_of_mem r hx))
    cases hp1 : p1 r <;> cases hp2 : p2 r <;> cases hp3 : p3 r <;>
      rw [hp1, hp2, hp3] at hr <;>
      simp only [Bool.toNat_true, Bool.toNat_false] at hr <;>
      first
        | omega
        | (simp [List.filter_cons, hp1, hp2, hp3]
           linarith [ih'])

/-- C8: when `split` partitions `total_df` (each row in exactly one of the
train, test and valid filters) and the total weight sum of response column
`j` is nonzero, the per-column fractions of the three subsets sum to one in
exact rational arithmetic. -/
theorem c8_fracs_sum_to_one (cds : String → String → List String → List String → List ℚ)
    (total_df : List Row) (split_df : List SplitEntry) (rc : List String) (j : ℕ)
    (hj : j < rc.length)
    (hpart : ∀ r ∈ total_df,
      ((subsetIds split_df "train").contains r.id).toNat
        + ((subsetIds split_df "test").contains r.id).toNat
        + ((subsetIds split_df "valid").contains r.id).toNat = 1)
    (hnz : (sumAxis0 (make_y_w total_df rc).2 rc.length).getD j 0 ≠ 0) :
    (mkSplitStats cds total_df split_df rc).train_fracs.getD j 0
      + (mkSplitStats cds total_df split_df rc).valid_fracs.getD j 0
      + (mkSplitStats cds total_df split_df rc).test_fracs.getD j 0 = 1 := by
  have htr : (mkSplitStats cds total_df split_df rc).train_fracs =
      List.zipWith (fun a b => a / b)
        (sumAxis0 (make_y_w (split total_df split_df).1 rc).2 rc.length)
        (sumAxis0 (make_y_w total_df rc).2 rc.length) := rfl
  have hva : (mkSplitStats cds total_df split_df rc).valid_fracs =
      List.zipWith (fun a b => a / b)
        (sumAxis0 (make_y_w (split total_df split_df).2.2 rc).2 rc.length)
        (sumAxis0 (make_y_w total_df rc).2 rc.length) := rfl
  have hte : (mkSplitStats cds total_df split_df rc).test_fracs =
      List.zipWith (fun a b => a / b)
        (sumAxis0 (make_y_w (split total_df split_df).2.1 rc).2 rc.length)
        (sumAxis0 (make_y_w total_df rc).2 rc.length) := rfl
  rw [htr, hva, hte]
  rw [zipWith_div_getD _ _ j (by rw [length_sumAxis0]; omega) (by rw [length_sumAxis0]; omega),
    zipWith_div_getD _ _ j (by rw [length_sumAxis0]; omega) (by rw [length_sumAxis0]; omega),
    zipWith_div_getD _ _ j (by rw [length_sumAxis0]; omega) (by rw [length_sumAxis0]; omega)]
  rw [div_add_div_same, div_add_div_same]
  have hsum := filter_partition_sum (wcell rc j) total_df
    (fun r => (subsetIds split_df "train").contains r.id)
    (fun r => (subsetIds split_df "test").contains r.id)
    (fun r => (subsetIds split_df "valid").contains r.id)
    hpart
  have h1 := make_y_w_colsum (split total_df split_df).1 rc j hj
  have h2 := make_y_w_colsum (split total_df split_df).2.1 rc j hj
  have h3 := make_y_w_colsum (split total_df split_df).2.2 rc j hj
  have h0 := make_y_w_colsum total_df rc j hj
  rw [h1, h2, h3, h0]
  rw [h0] at hnz
  have hnum : ((split total_df split_df).1.map (wcell rc j)).sum
      + ((split total_df split_df).2.2.map (wcell rc j)).sum
      + ((split total_df split_df).2.1.map (wcell rc j)).sum
      = (total_df.map (wcell rc j)).sum := by
    show ((total_df.filter (fun r => (subsetIds split_df "train").contains r.id)).map
          (wcell rc j)).sum
        + ((total_df.filter (fun r => (subsetIds split_df "valid").contains r.id)).map
          (wcell rc j)).sum
        + ((total_df.filter (fun r => (subsetIds split_df "test").contains r.id)).map
          (wcell rc j)).sum
      = (total_df.map (wcell rc j)).sum
    linarith [hsum]
  rw [hnum]
  exact div_self hnz

/-- Rows with one measured response column each, used to instantiate C8. -/
def rowM1 : Row := { id := "c1", smiles := "CCO", resp := [("a", 5)] }

def rowM2 : Row := { id := "c2", smiles := "CCN", resp := [("a", 7)] }

def rowM3 : Row := { id := "c3", smiles := "CCC", resp := [("a", 9)] }

def totalW8 : List Row := [rowM1, rowM2, rowM3]

def splitW8 : List SplitEntry :=
  [ { cmpd_id := "c1", subset := "train" }
  , { cmpd_id := "c2", subset := "test" }
  , { cmpd_id := "c3", subset := "valid" } ]

theorem c8_fracs_sum_to_one_witness :
    (mkSplitStats cdsW totalW8 splitW8 ["a"]).train_fracs.getD 0 0
      + (mkSplitStats cdsW totalW8 splitW8 ["a"]).valid_fracs.getD 0 0
      + (mkSplitStats cdsW totalW8 splitW8 ["a"]).test_fracs.getD 0 0 = 1 :=
  c8_fracs_sum_to_one cdsW totalW8 splitW8 ["a"] 0 (by decide) (by decide)
    (by norm_num [sumAxis0, make_y_w, totalW8, rowM1, rowM2, rowM3, slookup, List.getD])

end AMPL
